import Mathlib

/-!
Verification development for the aiwolf-nlp-agent action decision engine.

Strings are modelled as `List Char` (`Str`).  Python string methods used by
the source (`strip`, `replace`, `re.sub(r"\s+", " ", ·)`, substring tests,
the boundary-protected search) are embedded as executable list functions.
Randomness (`random.choice`) is modelled by an injected natural number used
as an index modulo the pool size.
-/

abbrev Str := List Char

/-- Python whitespace test restricted to the ASCII whitespace characters
(' ', '\t', '\n', '\r', '\x0b', '\x0c'); unicode whitespace is not modelled. -/
def pyIsSpace (c : Char) : Bool :=
  c = ' ' || c = '\t' || c = '\n' || c = '\r' || c = Char.ofNat 11 || c = Char.ofNat 12

def isAlnumAscii (c : Char) : Bool :=
  ('A' ≤ c && c ≤ 'Z') || ('a' ≤ c && c ≤ 'z') || ('0' ≤ c && c ≤ '9')

def isAsciiStr (s : Str) : Bool :=
  s.all fun c => c.toNat ≤ 127

/-- Python `str.strip()` (ASCII whitespace). -/
def pyStrip (s : Str) : Str :=
  ((s.dropWhile pyIsSpace).reverse.dropWhile pyIsSpace).reverse

/-- Python `str.strip(chars)`. -/
def pyStripChars (cs : List Char) (s : Str) : Str :=
  ((s.dropWhile (· ∈ cs)).reverse.dropWhile (· ∈ cs)).reverse

/-- Helper for `collapseWS`: `sp` records whether the previous character was
whitespace (so the current run has already emitted its single space). -/
def collapseWSAux (sp : Bool) : Str → Str
  | [] => []
  | c :: rest =>
    if pyIsSpace c then
      if sp then collapseWSAux true rest else ' ' :: collapseWSAux true rest
    else c :: collapseWSAux false rest

/-- `re.sub(r"\s+", " ", s)`: collapse each maximal whitespace run to one space. -/
def collapseWS (s : Str) : Str :=
  collapseWSAux false s

/-- Fuel-driven helper for `pyReplace`; the fuel is an upper bound on the
length of the remaining text, so the `0, s` branch is never reached from
`pyReplace`. -/
def pyReplaceAux (pat repl : Str) : Nat → Str → Str
  | _, [] => []
  | 0, s => s
  | Nat.succ fuel, c :: rest =>
    if !pat.isEmpty && pat.isPrefixOf (c :: rest) then
      repl ++ pyReplaceAux pat repl fuel ((c :: rest).drop pat.length)
    else c :: pyReplaceAux pat repl fuel rest

/-- Python `s.replace(pat, repl)` (left-to-right, non-overlapping).  For the
empty pattern this returns `s` unchanged, which agrees with Python at every
call site of the source (the pattern is never empty with a non-empty
replacement). -/
def pyReplace (pat repl s : Str) : Str :=
  pyReplaceAux pat repl s.length s

/-- Python `pat in s` substring test. -/
def containsSub (pat : Str) : Str → Bool
  | [] => pat.isPrefixOf ([] : Str)
  | c :: rest => pat.isPrefixOf (c :: rest) || containsSub pat rest

/-- One position of the boundary-protected search
`(?<![A-Za-z0-9])name(?![A-Za-z0-9])`: `prev` is the character just before
the current position (`none` at the start of the text). -/
def boundaryHit (prev : Option Char) (name s : Str) : Bool :=
  (match prev with | none => true | some c => !isAlnumAscii c) &&
  name.isPrefixOf s &&
  (match s.drop name.length with | [] => true | c :: _ => !isAlnumAscii c)

/-- `re.search` of the boundary-protected pattern over the whole text. -/
def boundaryFound (name : Str) : Option Char → Str → Bool
  | prev, [] => boundaryHit prev name []
  | prev, c :: rest => boundaryHit prev name (c :: rest) || boundaryFound name (some c) rest

/-- `name.replace("[", "").replace("]", "").isalnum()` for ASCII names. -/
def bracketAlnum (name : Str) : Bool :=
  let f := name.filter fun c => c ≠ '[' && c ≠ ']'
  !f.isEmpty && f.all isAlnumAscii

/-- Stable insertion (descending length), modelling Python's stable
`sorted(candidates, key=len, reverse=True)`. -/
def insertLenDesc (x : Str) : List Str → List Str
  | [] => [x]
  | y :: ys => if y.length ≤ x.length then x :: y :: ys else y :: insertLenDesc x ys

def sortLenDesc (l : List Str) : List Str :=
  l.foldr insertLenDesc []

/-- The cleaning pipeline at the head of `_extract_candidate_name`. -/
def cleanResponse (response : Str) : Str :=
  let c1 := pyStrip response
  let c2 := c1.map fun ch => if ch = '\n' then ' ' else ch
  let c3 := c2.map fun ch => if ch = '\r' then ' ' else ch
  let c4 := pyStrip c3
  let c5 := pyStripChars ['"', '\''] c4
  let c6 := collapseWS c5
  pyStrip c6

/-- The final loop of `_extract_candidate_name`: substring search over the
length-sorted candidates with boundary protection for ASCII names that are
alphanumeric after removing square brackets. -/
def extractSearchLoop (cleaned : Str) : List Str → Option Str
  | [] => none
  | name :: rest =>
    if containsSub name cleaned then
      if isAsciiStr name && bracketAlnum name then
        if boundaryFound name none cleaned then some name
        else extractSearchLoop cleaned rest
      else some name
    else extractSearchLoop cleaned rest

/-- `Agent._extract_candidate_name` (src/agent/agent.py). -/
def extractCandidateName (response : Str) (candidates : List Str) : Option Str :=
  if candidates.isEmpty then none
  else
    let cleaned := cleanResponse response
    if cleaned ∈ candidates then some cleaned
    else
      match cleaned with
      | '@' :: t => if t ∈ candidates then some t else extractSearchLoop cleaned (sortLenDesc candidates)
      | _ => extractSearchLoop cleaned (sortLenDesc candidates)

theorem mem_insertLenDesc {y x : Str} {l : List Str} :
    y ∈ insertLenDesc x l → y = x ∨ y ∈ l := by
  induction l with
  | nil => simp [insertLenDesc]
  | cons z zs ih =>
    simp only [insertLenDesc]
    split
    · simp
    · intro h
      rcases List.mem_cons.mp h with h | h
      · simp [h]
      · rcases ih h with h | h
        · simp [h]
        · simp [h]

theorem mem_sortLenDesc {y : Str} {l : List Str} :
    y ∈ sortLenDesc l → y ∈ l := by
  induction l with
  | nil => simp [sortLenDesc]
  | cons z zs ih =>
    intro h
    rcases mem_insertLenDesc (l := sortLenDesc zs) h with h | h
    · simp [h]
    · exact List.mem_cons_of_mem _ (ih h)

theorem extractSearchLoop_mem {cleaned : Str} {l : List Str} {n : Str}
    (h : extractSearchLoop cleaned l = some n) : n ∈ l := by
  induction l with
  | nil => simp [extractSearchLoop] at h
  | cons x xs ih =>
    simp only [extractSearchLoop] at h
    split at h
    · split at h
      · split at h
        · exact (Option.some_inj.mp h) ▸ List.mem_cons_self x xs
        · exact List.mem_cons_of_mem _ (ih h)
      · exact (Option.some_inj.mp h) ▸ List.mem_cons_self x xs
    · exact List.mem_cons_of_mem _ (ih h)

/-- The extractor only ever returns an exact element of the candidate list. -/
theorem extractCandidateName_mem {r : Str} {cs : List Str} {n : Str}
    (h : extractCandidateName r cs = some n) : n ∈ cs := by
  unfold extractCandidateName at h
  split at h
  · exact absurd h (by simp)
  · dsimp only at h
    split at h
    · next hmem => exact (Option.some_inj.mp h) ▸ hmem
    · split at h
      · split at h
        · next _ hmem => exact (Option.some_inj.mp h) ▸ hmem
        · exact mem_sortLenDesc (extractSearchLoop_mem h)
      · exact mem_sortLenDesc (extractSearchLoop_mem h)

/-- If the cleaned response is itself a candidate, that exact candidate is
returned (matching step (a) of the claim). -/
theorem extractCandidateName_exact {r : Str} {cs : List Str}
    (h : cleanResponse r ∈ cs) : extractCandidateName r cs = some (cleanResponse r) := by
  unfold extractCandidateName
  have hne : cs.isEmpty = false := by
    cases cs with
    | nil => exact absurd h (by simp)
    | cons a as => rfl
  simp [hne, h]

/-- C1 counterexample: the claim says a non-alphanumeric (bracket-decorated)
candidate such as "Agent[01]" matches by plain substring, but the code applies
boundary protection to any ASCII candidate that is alphanumeric after removing
square brackets.  In "xAgent[01]" the candidate "Agent[01]" occurs as a plain
substring of the cleaned text, yet the extractor returns none because the
character before the occurrence is alphanumeric. -/
theorem c1_counterexample :
    containsSub "Agent[01]".toList (cleanResponse "xAgent[01]".toList) = true ∧
    extractCandidateName "xAgent[01]".toList ["Agent[01]".toList] = none :=
  ⟨by decide, by decide⟩

/-- C1 (amended): the extractor returns none or an exact element of the
candidate list; an exact trimmed match wins first; the boundary-protected
substring step applies to every ASCII candidate that is alphanumeric after
removing square brackets (including bracket-decorated names such as
"Agent[01]"), while only other candidates match by plain substring; with
candidates sorted by descending length, a longer candidate is selected when it
alone occurs, and a strictly shorter candidate is never matched as a false
positive inside the longer one. -/
theorem c1_extract_amended :
    (∀ (r : Str) (cs : List Str) (n : Str), extractCandidateName r cs = some n → n ∈ cs) ∧
    (∀ (r : Str) (cs : List Str), cleanResponse r ∈ cs →
      extractCandidateName r cs = some (cleanResponse r)) ∧
    extractCandidateName "I choose Bob.".toList ["Alice".toList, "Bob".toList]
      = some "Bob".toList ∧
    extractCandidateName "@Alice".toList ["Alice".toList, "Bob".toList]
      = some "Alice".toList ∧
    extractCandidateName "I choose Minato.".toList ["Mina".toList, "Minato".toList]
      = some "Minato".toList ∧
    extractCandidateName "Minato is suspicious".toList ["Mina".toList, "Minato".toList]
      = some "Minato".toList ∧
    extractCandidateName "Minato is suspicious".toList ["Mina".toList] = none :=
  ⟨fun _ _ _ h => extractCandidateName_mem h,
   fun _ _ h => extractCandidateName_exact h,
   by decide, by decide, by decide, by decide, by decide⟩

/-- C1 witness: the universally quantified parts of the amended claim applied
at concrete inputs. -/
theorem c1_extract_amended_witness :
    "Bob".toList ∈ ["Alice".toList, "Bob".toList] ∧
    extractCandidateName "Bob".toList ["Alice".toList, "Bob".toList]
      = some (cleanResponse "Bob".toList) :=
  ⟨c1_extract_amended.1 "I choose Bob.".toList ["Alice".toList, "Bob".toList] "Bob".toList
      (by decide),
   c1_extract_amended.2.1 "Bob".toList ["Alice".toList, "Bob".toList] (by decide)⟩

/-!  ## Game data model (aiwolf_nlp_common packet types, as used by the agent) -/

inductive Status
  | alive
  | dead
deriving DecidableEq

inductive GameRole
  | werewolf
  | possessed
  | seer
  | bodyguard
  | villager
  | medium
deriving DecidableEq

inductive GameRequest
  | nameReq
  | talkReq
  | whisperReq
  | voteReq
  | divineReq
  | guardReq
  | attackReq
  | initializeReq
  | dailyInitReq
  | dailyFinishReq
  | finishReq
deriving DecidableEq

/-- A divine/medium judgement record. -/
structure Judge where
  target : Str
  isWerewolf : Bool
deriving DecidableEq

/-- One talk/whisper entry. -/
structure TalkEntry where
  agent : Str
  text : Str
  day : Nat
deriving DecidableEq

/-- One vote record. -/
structure VoteRec where
  agent : Str
  target : Str
  day : Nat
deriving DecidableEq

/-- The per-snapshot `Info` object; maps are association lists in server order. -/
structure AgentInfo where
  day : Nat
  agent : Str
  profile : Option Str
  statusMap : List (Str × Status)
  roleMap : List (Str × GameRole)
  divineResult : Option Judge
  mediumResult : Option Judge
  executedAgent : Option Str
  attackedAgent : Option Str
  voteList : List VoteRec
deriving DecidableEq

structure GameSetting where
  agentCount : Nat
  allowSelfVote : Bool
  actionTimeoutMs : Nat
deriving DecidableEq

structure GamePacket where
  request : GameRequest
  info : Option AgentInfo
  setting : Option GameSetting
  talkHistory : List TalkEntry
  whisperHistory : List TalkEntry
deriving DecidableEq

/-- The mutable agent state owned by one `Agent` instance.
`recentFallbackTalks` and `maxRecentTalks` model the attributes
`recent_fallback_talks` / `_max_recent_talks` read by the Werewolf and
Possessed fallback code; `none` models an attribute that was never assigned
(reading it raises `AttributeError`).  No constructor or method of the source
ever assigns them, despite the comment in both subclasses claiming they are
inherited from the base class. -/
structure AgentState where
  agentName : Str
  role : GameRole
  request : Option GameRequest
  info : Option AgentInfo
  setting : Option GameSetting
  gameName : Option Str
  profileText : Option Str
  talkHistory : List TalkEntry
  whisperHistory : List TalkEntry
  day : Nat
  divineResults : List Judge
  mediumResults : List Judge
  executedAgents : List Str
  attackedAgents : List Str
  voteHistory : List (List VoteRec)
  recentFallbackTalks : Option (List Str)
  maxRecentTalks : Option Nat
deriving DecidableEq

/-- The state established by `Agent.__init__` (before any packet). -/
def initAgentState (name : Str) (role : GameRole) : AgentState :=
  { agentName := name
    role := role
    request := none
    info := none
    setting := none
    gameName := none
    profileText := none
    talkHistory := []
    whisperHistory := []
    day := 0
    divineResults := []
    mediumResults := []
    executedAgents := []
    attackedAgents := []
    voteHistory := []
    recentFallbackTalks := none
    maxRecentTalks := none }

/-- `Agent.get_my_game_name`, second and third priority. -/
def gameNameFallback (st : AgentState) : Str :=
  match st.gameName with
  | some g => if !g.isEmpty then g else st.agentName
  | none => st.agentName

/-- `Agent.get_my_game_name`. -/
def getMyGameName (st : AgentState) : Str :=
  match st.info with
  | some i => if !i.agent.isEmpty then i.agent else gameNameFallback st
  | none => gameNameFallback st

/-- `Agent.get_alive_agents`. -/
def getAliveAgents (st : AgentState) : List Str :=
  match st.info with
  | none => []
  | some i => (i.statusMap.filter fun p => p.2 = Status.alive).map Prod.fst

/-- `Agent._get_vote_candidates`. -/
def getVoteCandidates (st : AgentState) : List Str :=
  let candidates := getAliveAgents st
  let me := getMyGameName st
  match st.setting with
  | none => candidates.filter (· ≠ me)
  | some s => if s.allowSelfVote = false then candidates.filter (· ≠ me) else candidates

/-- `Agent._get_divine_candidates`. -/
def getDivineCandidates (st : AgentState) : List Str :=
  (getAliveAgents st).filter (· ≠ getMyGameName st)

/-- `Agent._get_guard_candidates`. -/
def getGuardCandidates (st : AgentState) : List Str :=
  (getAliveAgents st).filter (· ≠ getMyGameName st)

/-- Known werewolves from the visible role map. -/
def knownWolves (st : AgentState) : List Str :=
  match st.info with
  | none => []
  | some i => (i.roleMap.filter fun p => p.2 = GameRole.werewolf).map Prod.fst

/-- `Agent._get_attack_candidates`. -/
def getAttackCandidates (st : AgentState) : List Str :=
  let me := getMyGameName st
  let wolves := knownWolves st
  (getAliveAgents st).filter fun a => a ≠ me && !wolves.contains a

/-- `Agent._random_choice`, with `random.choice` modelled by an injected pick
index taken modulo the pool size. -/
def randomChoice (pick : Nat) (candidates : List Str) : Str :=
  if candidates.isEmpty then [] else candidates.getD (pick % candidates.length) []

theorem randomChoice_mem {candidates : List Str} (h : candidates ≠ []) (pick : Nat) :
    randomChoice pick candidates ∈ candidates := by
  unfold randomChoice
  have hne : candidates.isEmpty = false := by simpa [List.isEmpty_iff] using h
  have hlt : pick % candidates.length < candidates.length :=
    Nat.mod_lt _ (List.length_pos.mpr h)
  simp only [hne, Bool.false_eq_true, if_false]
  rw [List.getD_eq_getElem _ _ hlt]
  exact List.getElem_mem hlt

/-!  ## Targeted actions (vote/divine/guard/attack) and their shared fallback -/

/-- The shared body of `Agent.vote` / `divine` / `guard` / `attack`:
`resp` is the value of `self._call_llm(...)` (`none` when the pipeline
failed); the Python truthiness test `if response:` treats the empty string
like `None`.  The fallback is
`self._random_choice(candidates) or self._random_choice(self.get_alive_agents())`,
where `or` takes the second operand when the first is the empty string. -/
def targetedResult (resp : Option Str) (candidates alive : List Str) (p1 p2 : Nat) : Str :=
  let extracted : Option Str :=
    match resp with
    | some r => if r.isEmpty then none else extractCandidateName r candidates
    | none => none
  match extracted with
  | some n => n
  | none =>
    let f := randomChoice p1 candidates
    if f.isEmpty then randomChoice p2 alive else f

/-- `Agent.vote`. -/
def voteAction (st : AgentState) (resp : Option Str) (p1 p2 : Nat) : Str :=
  targetedResult resp (getVoteCandidates st) (getAliveAgents st) p1 p2

/-- `Agent.divine`. -/
def divineAction (st : AgentState) (resp : Option Str) (p1 p2 : Nat) : Str :=
  targetedResult resp (getDivineCandidates st) (getAliveAgents st) p1 p2

/-- `Agent.guard`. -/
def guardAction (st : AgentState) (resp : Option Str) (p1 p2 : Nat) : Str :=
  targetedResult resp (getGuardCandidates st) (getAliveAgents st) p1 p2

/-- `Agent.attack`. -/
def attackAction (st : AgentState) (resp : Option Str) (p1 p2 : Nat) : Str :=
  targetedResult resp (getAttackCandidates st) (getAliveAgents st) p1 p2

theorem targetedResult_fallback_cases (c a : List Str) (p1 p2 : Nat) :
    (([] : Str) ∉ c → c ≠ [] → targetedResult none c a p1 p2 ∈ c) ∧
    (c = [] → a ≠ [] → targetedResult none c a p1 p2 ∈ a) ∧
    (c = [] → a = [] → targetedResult none c a p1 p2 = []) := by
  refine ⟨?_, ?_, ?_⟩
  · intro hnc hc
    have hmem := randomChoice_mem hc p1
    have hne : (randomChoice p1 c).isEmpty = false := by
      rcases hrc : randomChoice p1 c with _ | ⟨x, xs⟩
      · rw [hrc] at hmem; exact absurd hmem hnc
      · rfl
    simpa [targetedResult, hne] using hmem
  · intro hc ha
    have : randomChoice p1 c = [] := by simp [hc, randomChoice]
    simpa [targetedResult, this] using randomChoice_mem ha p2
  · intro hc ha
    have h1 : randomChoice p1 c = [] := by simp [hc, randomChoice]
    have h2 : randomChoice p2 a = [] := by simp [ha, randomChoice]
    simp [targetedResult, h1, h2]

/-- A state whose status map has no living agent: the degenerate input on
which the generic fallback bottoms out. -/
def c2DeadState : AgentState :=
  { initAgentState "kanolab1".toList GameRole.seer with
    info := some
      { day := 1
        agent := "Minato".toList
        profile := none
        statusMap := [("Minato".toList, Status.dead)]
        roleMap := []
        divineResult := none
        mediumResult := none
        executedAgent := none
        attackedAgent := none
        voteList := [] } }

/-- C2 counterexample: with an empty eligible set and an empty alive-list the
code returns the empty string, not the agent's own identity — so the engine
can emit an empty response for a targeted action. -/
theorem c2_counterexample :
    voteAction c2DeadState none 0 0 = [] ∧
    divineAction c2DeadState none 0 0 = [] ∧
    guardAction c2DeadState none 0 0 = [] ∧
    attackAction c2DeadState none 0 0 = [] ∧
    getMyGameName c2DeadState = "Minato".toList ∧ "Minato".toList ≠ ([] : Str) :=
  ⟨by decide, by decide, by decide, by decide, by decide, by decide⟩

/-- C2 (amended): for each targeted action, when generation fails the fallback
is a choice from the currently eligible candidate set; if that set is empty it
degrades to a choice over the full alive-list; and if that is also empty the
action returns the empty string (not the agent's own identity). -/
theorem c2_targeted_fallback_amended :
    ∀ (st : AgentState) (p1 p2 : Nat),
    ((([] : Str) ∉ getVoteCandidates st → getVoteCandidates st ≠ [] →
        voteAction st none p1 p2 ∈ getVoteCandidates st) ∧
      (getVoteCandidates st = [] → getAliveAgents st ≠ [] →
        voteAction st none p1 p2 ∈ getAliveAgents st) ∧
      (getVoteCandidates st = [] → getAliveAgents st = [] →
        voteAction st none p1 p2 = [])) ∧
    ((([] : Str) ∉ getDivineCandidates st → getDivineCandidates st ≠ [] →
        divineAction st none p1 p2 ∈ getDivineCandidates st) ∧
      (getDivineCandidates st = [] → getAliveAgents st ≠ [] →
        divineAction st none p1 p2 ∈ getAliveAgents st) ∧
      (getDivineCandidates st = [] → getAliveAgents st = [] →
        divineAction st none p1 p2 = [])) ∧
    ((([] : Str) ∉ getGuardCandidates st → getGuardCandidates st ≠ [] →
        guardAction st none p1 p2 ∈ getGuardCandidates st) ∧
      (getGuardCandidates st = [] → getAliveAgents st ≠ [] →
        guardAction st none p1 p2 ∈ getAliveAgents st) ∧
      (getGuardCandidates st = [] → getAliveAgents st = [] →
        guardAction st none p1 p2 = [])) ∧
    ((([] : Str) ∉ getAttackCandidates st → getAttackCandidates st ≠ [] →
        attackAction st none p1 p2 ∈ getAttackCandidates st) ∧
      (getAttackCandidates st = [] → getAliveAgents st ≠ [] →
        attackAction st none p1 p2 ∈ getAliveAgents st) ∧
      (getAttackCandidates st = [] → getAliveAgents st = [] →
        attackAction st none p1 p2 = [])) :=
  fun st p1 p2 =>
    ⟨targetedResult_fallback_cases (getVoteCandidates st) (getAliveAgents st) p1 p2,
     targetedResult_fallback_cases (getDivineCandidates st) (getAliveAgents st) p1 p2,
     targetedResult_fallback_cases (getGuardCandidates st) (getAliveAgents st) p1 p2,
     targetedResult_fallback_cases (getAttackCandidates st) (getAliveAgents st) p1 p2⟩

/-- A two-player state in which "Bob" is the only eligible vote target. -/
def c2LiveState : AgentState :=
  { initAgentState "kanolab1".toList GameRole.seer with
    info := some
      { day := 1
        agent := "Minato".toList
        profile := none
        statusMap := [("Minato".toList, Status.alive), ("Bob".toList, Status.alive)]
        roleMap := []
        divineResult := none
        mediumResult := none
        executedAgent := none
        attackedAgent := none
        voteList := [] } }

/-- C2 witness: the amended claim applied at a concrete live state. -/
theorem c2_targeted_fallback_amended_witness :
    voteAction c2LiveState none 0 0 ∈ getVoteCandidates c2LiveState ∧
    voteAction c2DeadState none 0 0 = [] :=
  ⟨(c2_targeted_fallback_amended c2LiveState 0 0).1.1 (by decide) (by decide),
   ((c2_targeted_fallback_amended c2DeadState 0 0).1.2.2 (by decide) (by decide))⟩

/-!  ## Action dispatcher timeout wrapper (`Agent.timeout`, `StoppableThread`) -/

/-- The two shapes the shared `res` slot can hold when the wrapper inspects it:
the placeholder `Exception("No result")` it was initialized with, or an
exception raised by the handler itself. -/
inductive WrapErr
  | noResult
  | handlerError
deriving DecidableEq

/-- The observable outcome of one `timeout`-wrapped call. -/
structure TimeoutRun (T : Type) where
  result : Except WrapErr T
  loggedTimeout : Bool
  forcedKill : Bool

/-- `Agent.timeout`'s `_wrapper` after the join: `timeoutSecs` is
`setting.timeout.action // 1000` (0 when unset, meaning an unbounded join);
`outcome` is the contents of the shared `res` slot at the final check —
`none` models a handler that is still running, so the slot still holds the
placeholder exception.  The wrapper ends with
`if isinstance(res, Exception): raise res`, so an unfinished handler makes it
raise the placeholder. -/
def timeoutWrapper {T : Type} (timeoutSecs : Nat) (killOnTimeout : Bool)
    (outcome : Option (Except Unit T)) : TimeoutRun T :=
  let timedOut := decide (0 < timeoutSecs) && outcome.isNone
  { result :=
      match outcome with
      | some (Except.ok v) => Except.ok v
      | some (Except.error _) => Except.error WrapErr.handlerError
      | none => Except.error WrapErr.noResult
    loggedTimeout := timedOut
    forcedKill := timedOut && killOnTimeout }

/-- The per-action deadline in seconds, as computed by the wrapper. -/
def actionTimeoutSecs (st : AgentState) : Nat :=
  (match st.setting with
   | some s => s.actionTimeoutMs
   | none => 0) / 1000

/-- C3 counterexample: deadline 5s, forced kill disabled, handler still
running — the wrapper logs the timeout but then raises the placeholder
exception instead of returning without a value, so a deadline-exceeded
condition does reach the caller as an error. -/
theorem c3_counterexample :
    (timeoutWrapper (T := Str) 5 false none).loggedTimeout = true ∧
    (timeoutWrapper (T := Str) 5 false none).forcedKill = false ∧
    (timeoutWrapper (T := Str) 5 false none).result = Except.error WrapErr.noResult :=
  ⟨rfl, rfl, rfl⟩

/-- C3 (amended): when the deadline elapses with the handler unfinished and
forced kill disabled, the wrapper logs the timeout, performs no kill, and —
because the shared result slot still holds the placeholder exception —
raises `Exception("No result")` to its caller, so the deadline overrun
surfaces to the outer game loop as an exception; if the handler did finish,
its value is returned (or its own error re-raised) and no timeout is
logged. -/
theorem c3_timeout_amended :
    ∀ (t : Nat) (kill : Bool) (outcome : Option (Except Unit Str)),
    (0 < t → outcome = none →
      (timeoutWrapper t kill outcome).loggedTimeout = true ∧
      (timeoutWrapper t kill outcome).forcedKill = kill ∧
      (timeoutWrapper t kill outcome).result = Except.error WrapErr.noResult) ∧
    (∀ v : Str, outcome = some (Except.ok v) →
      (timeoutWrapper t kill outcome).result = Except.ok v ∧
      (timeoutWrapper t kill outcome).loggedTimeout = false ∧
      (timeoutWrapper t kill outcome).forcedKill = false) := by
  intro t kill outcome
  constructor
  · intro ht hout
    subst hout
    have hd : decide (0 < t) = true := by simpa using ht
    simp [timeoutWrapper, hd]
  · intro v hout
    subst hout
    simp [timeoutWrapper]

/-- C3 witness: the amended claim applied at deadline 5s, kill disabled,
handler unfinished, and at a finished handler. -/
theorem c3_timeout_amended_witness :
    ((timeoutWrapper (T := Str) 5 false none).loggedTimeout = true ∧
      (timeoutWrapper (T := Str) 5 false none).forcedKill = false ∧
      (timeoutWrapper (T := Str) 5 false none).result = Except.error WrapErr.noResult) ∧
    (timeoutWrapper (T := Str) 5 false (some (Except.ok []))).result = Except.ok [] :=
  ⟨(c3_timeout_amended 5 false none).1 (by decide) rfl,
   ((c3_timeout_amended 5 false (some (Except.ok []))).2 [] rfl).1⟩

/-!  ## Free-text fallback pools and the sanitizer -/

instance {ε α : Type} [DecidableEq ε] [DecidableEq α] : DecidableEq (Except ε α) := fun x y =>
  match x, y with
  | Except.ok a, Except.ok b =>
    if h : a = b then isTrue (by rw [h]) else isFalse (by simp [h])
  | Except.error a, Except.error b =>
    if h : a = b then isTrue (by rw [h]) else isFalse (by simp [h])
  | Except.ok _, Except.error _ => isFalse (by simp)
  | Except.error _, Except.ok _ => isFalse (by simp)

inductive ActionKind
  | talk
  | whisper
deriving DecidableEq

/-- Reading a never-assigned instance attribute raises `AttributeError`. -/
inductive AttrErr
  | recentFallbackTalksMissing
  | maxRecentTalksMissing
deriving DecidableEq

/-- `Agent._fallback_talk_like` whisper pool. -/
def baseWhisperPool : List Str :=
  ["We should keep calm and watch reactions.".toList,
   "Let us coordinate our votes and keep a consistent story.".toList,
   "I will follow the flow and avoid drawing attention.".toList]

/-- `Agent._fallback_talk_like` talk pool. -/
def baseTalkPool : List Str :=
  ["Hello everyone.".toList,
   "I want to hear your reasoning.".toList,
   "Let us discuss who seems suspicious.".toList,
   "I am not sure yet but I will share my thoughts soon.".toList]

/-- `Agent._fallback_talk_like`: a plain `random.choice` from a fixed pool,
with no anti-repetition state of any kind. -/
def agentFallbackTalkLike (pick : Nat) (kind : ActionKind) : Str :=
  match kind with
  | ActionKind.whisper => randomChoice pick baseWhisperPool
  | ActionKind.talk => randomChoice pick baseTalkPool

def toLowerAscii (c : Char) : Char :=
  if 'A' ≤ c && c ≤ 'Z' then Char.ofNat (c.toNat + 32) else c

/-- Case-insensitive literal prefix test (`re.IGNORECASE`, ASCII letters). -/
def ciKeywordAt (kw s : Str) : Bool :=
  (s.take kw.length).map toLowerAscii = kw

/-- Tail of the `^(talk|whisper)\s*[:\-]\s*` match: after the label, optional
whitespace, one of `:`/`-`, optional whitespace; if the `[:\-]` part is
missing the regex fails and the text is unchanged. -/
def stripLabelRest (orig rest : Str) : Str :=
  match rest.dropWhile pyIsSpace with
  | c :: r3 => if c = ':' || c = '-' then r3.dropWhile pyIsSpace else orig
  | [] => orig

/-- `re.sub(r"^(talk|whisper)\s*[:\-]\s*", "", s, flags=re.IGNORECASE)`. -/
def stripTalkLabel (s : Str) : Str :=
  if ciKeywordAt "talk".toList s then stripLabelRest s (s.drop 4)
  else if ciKeywordAt "whisper".toList s then stripLabelRest s (s.drop 7)
  else s

/-- Regex word-class `\w`, restricted to ASCII (the protocol keywords and
claim phrases searched with it are ASCII). -/
def wordChar (c : Char) : Bool :=
  isAlnumAscii c || c = '_'

/-- The fixed protocol-token set of
`\b(VOTE|DIVINE|GUARD|ATTACK|COMINGOUT|ESTIMATE|AGREE|DISAGREE)\b`. -/
def protocolKeywords : List Str :=
  ["VOTE".toList, "DIVINE".toList, "GUARD".toList, "ATTACK".toList,
   "COMINGOUT".toList, "ESTIMATE".toList, "AGREE".toList, "DISAGREE".toList]

/-- One keyword matching at the current position with `\b` on both sides. -/
def kwHitAt (prev : Option Char) (kw s : Str) : Bool :=
  (match prev with | none => true | some c => !wordChar c) &&
  kw.isPrefixOf s &&
  (match s.drop kw.length with | [] => true | c :: _ => !wordChar c)

/-- `re.search` of the protocol-keyword pattern over the whole text. -/
def protocolKwFound : Option Char → Str → Bool
  | prev, [] => protocolKeywords.any fun kw => kwHitAt prev kw []
  | prev, c :: rest =>
    (protocolKeywords.any fun kw => kwHitAt prev kw (c :: rest)) ||
      protocolKwFound (some c) rest

/-- The Japanese-script character classes
`[　-〿぀-ヿ㐀-鿿]`. -/
def isJapaneseChar (c : Char) : Bool :=
  (0x3000 ≤ c.toNat && c.toNat ≤ 0x303f) ||
  (0x3040 ≤ c.toNat && c.toNat ≤ 0x30ff) ||
  (0x3400 ≤ c.toNat && c.toNat ≤ 0x9fff)

/-- The name-masking loop: for each known in-game name, remove `@name` then
`name`. -/
def maskNames (names : List Str) (s : Str) : Str :=
  names.foldl (fun m name => pyReplace name [] (pyReplace ('@' :: name) [] m)) s

/-- The deterministic cleaning pipeline of `_sanitize_free_text` (single-line
normalization, quote strip, whitespace collapse, label strip, comma
removal). -/
def sanitizeCleaned (text : Str) : Str :=
  let c1 := text.map fun ch => if ch = '\r' then ' ' else ch
  let c2 := c1.map fun ch => if ch = '\n' then ' ' else ch
  let c3 := pyStrip c2
  let c4 := pyStripChars ['"', '\''] c3
  let c5 := pyStrip (collapseWS c4)
  let c6 := stripTalkLabel c5
  let c7 := pyReplace [','] [] c6
  let c8 := pyReplace ['，'] [] c7
  pyReplace ['、'] [] c8

/-- `Agent._sanitize_free_text`, parameterized by the (dynamically
dispatched) `self._fallback_talk_like`, which for the Werewolf/Possessed
subclasses can raise `AttributeError`. -/
def sanitizeFreeTextWith (fallback : ActionKind → Except AttrErr Str)
    (info : Option AgentInfo) (text : Str) (kind : ActionKind) : Except AttrErr Str :=
  let cleaned := sanitizeCleaned text
  if cleaned = "Skip".toList || cleaned = "Over".toList then Except.ok cleaned
  else if protocolKwFound none cleaned then (fallback kind).map pyStrip
  else
    match info with
    | some i =>
      let masked := maskNames (i.statusMap.map Prod.fst) cleaned
      if masked.any isJapaneseChar then (fallback kind).map pyStrip
      else Except.ok cleaned
    | none => Except.ok cleaned

/-- The base-class fallback never raises. -/
def baseFallback (pick : Nat) : ActionKind → Except AttrErr Str :=
  fun kind => Except.ok (agentFallbackTalkLike pick kind)

example : sanitizeFreeTextWith (baseFallback 0) none "a, b".toList ActionKind.talk
    = Except.ok "a b".toList := by decide

example : sanitizeFreeTextWith (baseFallback 0) none "  Skip ".toList ActionKind.talk
    = Except.ok "Skip".toList := by decide

example : sanitizeFreeTextWith (baseFallback 0) none "Let us VOTE now".toList ActionKind.talk
    = Except.ok "Hello everyone.".toList := by decide

example : sanitizeFreeTextWith (baseFallback 0) none "talk: VOTER votes".toList ActionKind.talk
    = Except.ok "VOTER votes".toList := by decide

/-!  ## Werewolf and Possessed role overrides -/

/-- `Werewolf._fallback_talk_like` whisper pool. -/
def werewolfWhisperPool : List Str :=
  ["Let us target someone influential tonight.".toList,
   "We should avoid the obvious targets.".toList,
   "I will follow your lead on the attack.".toList,
   "Stay calm and blend in tomorrow.".toList,
   "The Seer is dangerous. We should consider attacking them.".toList,
   "Who do you think is the Bodyguard?".toList,
   "Let us split our votes to avoid suspicion.".toList,
   "I will act suspicious to draw attention away from you.".toList]

/-- `Werewolf._fallback_talk_like` day-0 pool. -/
def werewolfDay0Pool : List Str :=
  ["Hello everyone. I hope we can work together.".toList,
   "Nice to meet you all. Let us find the wolves.".toList,
   "I am looking forward to hearing everyone's thoughts.".toList,
   "Greetings. I want to help the village win.".toList]

/-- `Werewolf._fallback_talk_like` day-1+ pool. -/
def werewolfDay1Pool : List Str :=
  ["I find the quiet ones most suspicious.".toList,
   "We should vote carefully today.".toList,
   "Does anyone have solid information?".toList,
   "Something feels off about this situation.".toList,
   "I am not fully convinced by that claim.".toList,
   "We need to think about who benefits from this.".toList,
   "That reasoning does not add up to me.".toList,
   "I want to hear more before I decide.".toList,
   "The real wolf is probably hiding in plain sight.".toList,
   "We should focus on finding the werewolf.".toList,
   "I have been observing everyone closely.".toList,
   "Let us think about who has been acting strange.".toList]

/-- `Possessed._fallback_talk_like` day-0 pool. -/
def possessedDay0Pool : List Str :=
  ["Hello everyone. I look forward to finding the truth.".toList,
   "Nice to meet you all. I have a keen sense for danger.".toList,
   "Greetings. I will be watching everyone carefully.".toList,
   "Hello. Something tells me this will be interesting.".toList]

/-- `Possessed._fallback_talk_like` day-1+ pool. -/
def possessedDay1Pool : List Str :=
  ["I have a bad feeling about someone here.".toList,
   "I sensed something suspicious last night.".toList,
   "I have information that might change things.".toList,
   "I noticed something important during the night.".toList,
   "There is something I need to share with everyone.".toList,
   "Something does not add up with the claims.".toList,
   "We might be making a mistake with our suspicions.".toList,
   "I think we should reconsider who we trust.".toList,
   "The real threat might be hiding in plain sight.".toList,
   "I am not sure the Seer is telling the truth.".toList,
   "The most trusted person could be the wolf.".toList,
   "We should question those who seem too helpful.".toList,
   "The Seer might be lying to protect someone.".toList,
   "I doubt the divination results we heard.".toList]

/-- The anti-repetition selection shared by the Werewolf and Possessed
fallbacks: read `self.recent_fallback_talks`, filter it out of the pool
(resetting when exhausted), pick, append, and trim to
`self._max_recent_talks`.  Both attribute reads raise `AttributeError`
because nothing ever assigns them. -/
def bufferedPoolSelect (st : AgentState) (pick : Nat) (candidates : List Str) :
    Except AttrErr (Str × AgentState) :=
  match st.recentFallbackTalks with
  | none => Except.error AttrErr.recentFallbackTalksMissing
  | some recents =>
    let available := candidates.filter fun c => !recents.contains c
    let recents1 := if available.isEmpty then [] else recents
    let pool := if available.isEmpty then candidates else available
    let selected := randomChoice pick pool
    let recents2 := recents1 ++ [selected]
    match st.maxRecentTalks with
    | none => Except.error AttrErr.maxRecentTalksMissing
    | some maxR =>
      let recents3 := if maxR < recents2.length then recents2.drop 1 else recents2
      Except.ok (selected, { st with recentFallbackTalks := some recents3 })

/-- `Werewolf._fallback_talk_like`. -/
def werewolfFallbackTalkLike (st : AgentState) (pick : Nat) (kind : ActionKind) :
    Except AttrErr (Str × AgentState) :=
  match kind with
  | ActionKind.whisper => Except.ok (randomChoice pick werewolfWhisperPool, st)
  | ActionKind.talk =>
    bufferedPoolSelect st pick (if st.day = 0 then werewolfDay0Pool else werewolfDay1Pool)

/-- `Possessed._fallback_talk_like` (no whisper branch; both day pools go
through the same buffered selection). -/
def possessedFallbackTalkLike (st : AgentState) (pick : Nat) (_ : ActionKind) :
    Except AttrErr (Str × AgentState) :=
  bufferedPoolSelect st pick (if st.day = 0 then possessedDay0Pool else possessedDay1Pool)

/-- `Werewolf._get_werewolf_teammates`. -/
def werewolfTeammates (st : AgentState) : List Str :=
  match st.info with
  | none => []
  | some i =>
    ((i.roleMap.filter fun p => p.2 = GameRole.werewolf && p.1 ≠ getMyGameName st).map Prod.fst)

/-- The six `\b`-delimited, case-insensitive Seer-claim phrases of
`_find_seer_claimers`. -/
def seerClaimKeywords : List Str :=
  ["i am the seer".toList, "i am seer".toList, "seer here".toList,
   "i divined".toList, "my divination".toList, "divination result".toList]

/-- Case-insensitive keyword occurrence at the current position with `\b` on
both sides (all phrase characters are ASCII word characters at both ends). -/
def ciKwHitAt (prev : Option Char) (kw s : Str) : Bool :=
  (match prev with | none => true | some c => !wordChar c) &&
  (s.take kw.length).map toLowerAscii = kw &&
  (match s.drop kw.length with | [] => true | c :: _ => !wordChar c)

/-- `re.search` of the Seer-claim pattern (IGNORECASE). -/
def seerClaimFound : Option Char → Str → Bool
  | prev, [] => seerClaimKeywords.any fun kw => ciKwHitAt prev kw []
  | prev, c :: rest =>
    (seerClaimKeywords.any fun kw => ciKwHitAt prev kw (c :: rest)) ||
      seerClaimFound (some c) rest

/-- `Werewolf._find_seer_claimers` (also `Possessed._find_seer_claimers`). -/
def findSeerClaimers (st : AgentState) : List Str :=
  st.talkHistory.foldl
    (fun acc t =>
      if !t.agent.isEmpty && !t.text.isEmpty && seerClaimFound none t.text
          && !acc.contains t.agent
      then acc ++ [t.agent] else acc)
    []

/-- The outcome of `Werewolf._fallback_vote`, with the
"Werewolf has no non-wolf candidates" warning made observable. -/
structure VoteFallbackRun where
  target : Str
  droppedExclusionWarning : Bool
deriving DecidableEq

/-- `Werewolf._fallback_vote`. -/
def werewolfFallbackVote (st : AgentState) (pick : Nat) : VoteFallbackRun :=
  let myName := getMyGameName st
  let candidates := (getAliveAgents st).filter (· ≠ myName)
  if candidates.isEmpty then { target := myName, droppedExclusionWarning := false }
  else
    let teammates := werewolfTeammates st
    let safe := candidates.filter fun c => !teammates.contains c
    if safe.isEmpty then
      { target := randomChoice pick candidates, droppedExclusionWarning := true }
    else
      let seerTargets := (findSeerClaimers st).filter fun c => safe.contains c
      if !seerTargets.isEmpty then
        { target := randomChoice pick seerTargets, droppedExclusionWarning := false }
      else
        { target := randomChoice pick safe, droppedExclusionWarning := false }

/-- `Werewolf.vote`: the LLM-extracted name is rejected when it is a known
teammate; any failure falls back to `_fallback_vote`. -/
def werewolfVote (st : AgentState) (resp : Option Str) (pick : Nat) : VoteFallbackRun :=
  let candidates := getVoteCandidates st
  let extracted : Option Str :=
    match resp with
    | some r => if r.isEmpty then none else extractCandidateName r candidates
    | none => none
  match extracted with
  | some n =>
    if !(werewolfTeammates st).contains n then { target := n, droppedExclusionWarning := false }
    else werewolfFallbackVote st pick
  | none => werewolfFallbackVote st pick

/-- The Werewolf agent state right after `__init__` (the buffer attributes
were never assigned). -/
def freshWerewolf : AgentState :=
  initAgentState "kanolab1".toList GameRole.werewolf

/-- The Possessed agent state right after `__init__`. -/
def freshPossessed : AgentState :=
  initAgentState "kanolab1".toList GameRole.possessed

/-- C4: evaluating `_sanitize_free_text` on a fresh Werewolf or Possessed
agent with a forbidden protocol keyword in the text raises `AttributeError`
(the dynamically dispatched `_fallback_talk_like` reads
`self.recent_fallback_talks`, which no constructor ever assigns), so the
sanitizer does NOT always return a fallback — contradicting the claim. -/
theorem c4_sanitizer_raises :
    sanitizeFreeTextWith
      (fun k => (werewolfFallbackTalkLike freshWerewolf 0 k).map Prod.fst)
      none "Let us VOTE now".toList ActionKind.talk
      = Except.error AttrErr.recentFallbackTalksMissing ∧
    sanitizeFreeTextWith
      (fun k => (possessedFallbackTalkLike freshPossessed 0 k).map Prod.fst)
      none "Let us VOTE now".toList ActionKind.talk
      = Except.error AttrErr.recentFallbackTalksMissing ∧
    (∀ (info : Option AgentInfo) (pick : Nat) (text : Str) (kind : ActionKind),
      (sanitizeFreeTextWith (baseFallback pick) info text kind).isOk = true) :=
  ⟨by decide, by decide, by
    intro info pick text kind
    unfold sanitizeFreeTextWith
    dsimp only
    split
    · rfl
    · split
      · simp [baseFallback, Except.map, Except.isOk, Except.toBool]
      · match info with
        | some i =>
          dsimp only
          split
          · simp [baseFallback, Except.map, Except.isOk, Except.toBool]
          · rfl
        | none => rfl⟩

/-- Repeated calls of the base `Agent._fallback_talk_like` with given draws:
the base class keeps no anti-repetition state, so the calls are independent. -/
def agentFallbackTalkSeq (picks : List Nat) (kind : ActionKind) : List Str :=
  picks.map fun p => agentFallbackTalkLike p kind

/-- C6: the claimed ring buffer does not work in any class.  For the Werewolf
and Possessed overrides the first fallback talk raises `AttributeError`
(`recent_fallback_talks` / `_max_recent_talks` are never initialized), and
the base `Agent._fallback_talk_like` keeps no buffer at all, so consecutive
calls can return the same literal text immediately. -/
theorem c6_ring_buffer_bug :
    werewolfFallbackTalkLike { freshWerewolf with day := 1 } 0 ActionKind.talk
      = Except.error AttrErr.recentFallbackTalksMissing ∧
    werewolfFallbackTalkLike freshWerewolf 0 ActionKind.talk
      = Except.error AttrErr.recentFallbackTalksMissing ∧
    possessedFallbackTalkLike { freshPossessed with day := 1 } 0 ActionKind.talk
      = Except.error AttrErr.recentFallbackTalksMissing ∧
    agentFallbackTalkSeq [0, 0] ActionKind.talk
      = ["Hello everyone.".toList, "Hello everyone.".toList] :=
  ⟨by decide, by decide, by decide, by decide⟩

/-- C5: whenever at least one living, eligible non-teammate exists (`safe`
nonempty), the Werewolf fallback vote target is drawn from `safe`, hence is
never a known teammate, and no exclusion-dropped warning is recorded; the
exclusion is dropped (with the warning) only when `safe` is empty; the full
`Werewolf.vote` also never returns a teammate in that case because an
extracted teammate name is rejected in favour of the fallback. -/
theorem c5_no_teammate_vote :
    ∀ (st : AgentState) (pick : Nat) (resp : Option Str),
    (((getAliveAgents st).filter (· ≠ getMyGameName st)).filter
        (fun c => !(werewolfTeammates st).contains c) ≠ [] →
      ((werewolfFallbackVote st pick).target ∈
          ((getAliveAgents st).filter (· ≠ getMyGameName st)).filter
            (fun c => !(werewolfTeammates st).contains c) ∧
        (werewolfFallbackVote st pick).target ∉ werewolfTeammates st ∧
        (werewolfFallbackVote st pick).droppedExclusionWarning = false) ∧
      (werewolfVote st resp pick).target ∉ werewolfTeammates st) ∧
    (((getAliveAgents st).filter (· ≠ getMyGameName st)).filter
        (fun c => !(werewolfTeammates st).contains c) = [] →
      (getAliveAgents st).filter (· ≠ getMyGameName st) ≠ [] →
      (werewolfFallbackVote st pick).droppedExclusionWarning = true) := by
  intro st pick resp
  set me := getMyGameName st with hme
  set cand := (getAliveAgents st).filter (· ≠ me) with hcand
  set teammates := werewolfTeammates st with htm
  set safe := cand.filter (fun c => !teammates.contains c) with hsafe
  have fallbackProps : safe ≠ [] →
      (werewolfFallbackVote st pick).target ∈ safe ∧
      (werewolfFallbackVote st pick).target ∉ teammates ∧
      (werewolfFallbackVote st pick).droppedExclusionWarning = false := by
    intro hsne
    have hcandne : cand ≠ [] := by
      intro hc
      rw [hsafe, hc] at hsne
      exact hsne rfl
    have hmemsafe : (werewolfFallbackVote st pick).target ∈ safe := by
      unfold werewolfFallbackVote
      dsimp only
      rw [← hcand, ← htm, ← hsafe]
      have hce : cand.isEmpty = false := by simpa [List.isEmpty_iff] using hcandne
      have hse : safe.isEmpty = false := by simpa [List.isEmpty_iff] using hsne
      simp only [hce, hse, Bool.false_eq_true, if_false]
      split
      · next hst =>
        have hne : (findSeerClaimers st).filter (fun c => safe.contains c) ≠ [] := by
          simpa [List.isEmpty_iff] using hst
        have := randomChoice_mem hne pick
        have hc := List.of_mem_filter this
        simpa using hc
      · exact randomChoice_mem hsne pick
    refine ⟨hmemsafe, ?_, ?_⟩
    · have := List.of_mem_filter hmemsafe
      simpa using this
    · unfold werewolfFallbackVote
      dsimp only
      rw [← hcand, ← htm, ← hsafe]
      have hce : cand.isEmpty = false := by simpa [List.isEmpty_iff] using hcandne
      have hse : safe.isEmpty = false := by simpa [List.isEmpty_iff] using hsne
      simp only [hce, hse, Bool.false_eq_true, if_false]
      split <;> rfl
  constructor
  · intro hsne
    refine ⟨fallbackProps hsne, ?_⟩
    unfold werewolfVote
    dsimp only
    split
    · next n hext =>
      split
      · next hnot => simpa using hnot
      · exact (fallbackProps hsne).2.1
    · exact (fallbackProps hsne).2.1
  · intro hse hcne
    unfold werewolfFallbackVote
    dsimp only
    rw [← hcand, ← htm, ← hsafe]
    have hce : cand.isEmpty = false := by simpa [List.isEmpty_iff] using hcne
    have hsee : safe.isEmpty = true := by simpa [List.isEmpty_iff] using hse
    simp [hce, hsee]

/-- A reachable Werewolf state: self "Wolf1", teammate "Wolf2", and one
living non-teammate "Villager1". -/
def c5WolfState : AgentState :=
  { initAgentState "kanolab1".toList GameRole.werewolf with
    info := some
      { day := 1
        agent := "Wolf1".toList
        profile := none
        statusMap := [("Wolf1".toList, Status.alive), ("Wolf2".toList, Status.alive),
                      ("Villager1".toList, Status.alive)]
        roleMap := [("Wolf1".toList, GameRole.werewolf), ("Wolf2".toList, GameRole.werewolf)]
        divineResult := none
        mediumResult := none
        executedAgent := none
        attackedAgent := none
        voteList := [] } }

/-- C5 witness: the theorem applied at a concrete state with a living
non-teammate candidate. -/
theorem c5_no_teammate_vote_witness :
    (werewolfFallbackVote c5WolfState 0).target ∉ werewolfTeammates c5WolfState ∧
    (werewolfVote c5WolfState none 0).target ∉ werewolfTeammates c5WolfState :=
  ⟨((c5_no_teammate_vote c5WolfState 0 none).1 (by decide)).1.2.1,
   ((c5_no_teammate_vote c5WolfState 0 none).1 (by decide)).2⟩

/-!  ## LLM invocation pipeline (`GeminiClient.generate`) -/

/-- The classified failure kinds of one generation attempt
({LLMTimeoutError, LLMAPIError, LLMError-wrapped unexpected}). -/
inductive GenErr
  | timeoutKind
  | apiErrorKind
  | unexpectedKind
deriving DecidableEq

/-- One observable run of `GeminiClient.generate`: the returned text or the
last classified error, the number of attempts actually executed, and the
backoff delays slept between consecutive attempts (in time units). -/
structure GenRun where
  result : Except GenErr Str
  attempts : Nat
  delays : List Nat
deriving DecidableEq

/-- The retry loop of `GeminiClient.generate`: `outcomes n` is the result of
the `n`-th call to `_generate_with_timeout`; `remaining` is the number of
retries still allowed (`max_retries - attempt`); after each failure with a
retry remaining the code sleeps `2 ** attempt`. -/
def geminiGenerateAux (outcomes : Nat → Except GenErr Str) : Nat → Nat → GenRun
  | 0, attempt =>
    match outcomes attempt with
    | Except.ok t => { result := Except.ok t, attempts := attempt + 1, delays := [] }
    | Except.error e => { result := Except.error e, attempts := attempt + 1, delays := [] }
  | Nat.succ rem, attempt =>
    match outcomes attempt with
    | Except.ok t => { result := Except.ok t, attempts := attempt + 1, delays := [] }
    | Except.error _ =>
      let rest := geminiGenerateAux outcomes rem (attempt + 1)
      { result := rest.result, attempts := rest.attempts, delays := 2 ^ attempt :: rest.delays }

/-- `GeminiClient.generate` with `max_retries` additional attempts. -/
def geminiGenerate (outcomes : Nat → Except GenErr Str) (maxRetries : Nat) : GenRun :=
  geminiGenerateAux outcomes maxRetries 0

theorem geminiGenerateAux_spec (outcomes : Nat → Except GenErr Str) :
    ∀ (rem attempt : Nat),
      attempt + 1 ≤ (geminiGenerateAux outcomes rem attempt).attempts ∧
      (geminiGenerateAux outcomes rem attempt).attempts ≤ attempt + rem + 1 ∧
      (geminiGenerateAux outcomes rem attempt).delays
        = (List.range' attempt ((geminiGenerateAux outcomes rem attempt).attempts - 1 - attempt)).map
            (2 ^ ·) := by
  intro rem
  induction rem with
  | zero =>
    intro attempt
    unfold geminiGenerateAux
    match h : outcomes attempt with
    | Except.ok t => simp
    | Except.error e => simp
  | succ rem ih =>
    intro attempt
    unfold geminiGenerateAux
    match h : outcomes attempt with
    | Except.ok t => simp
    | Except.error e =>
      dsimp only
      obtain ⟨h1, h2, h3⟩ := ih (attempt + 1)
      refine ⟨by omega, by omega, ?_⟩
      rw [h3]
      have hn : (geminiGenerateAux outcomes rem (attempt + 1)).attempts - 1 - attempt
          = ((geminiGenerateAux outcomes rem (attempt + 1)).attempts - 1 - (attempt + 1)) + 1 := by
        omega
      rw [hn, List.range'_succ]
      simp

/-- The scenario of §8 of the spec: the first two attempts fail, the third
succeeds. -/
def failTwiceOutcomes : Nat → Except GenErr Str
  | 0 => Except.error GenErr.timeoutKind
  | 1 => Except.error GenErr.apiErrorKind
  | _ => Except.ok "third attempt text".toList

/-- C7: the pipeline makes at most `max_retries` additional attempts beyond
the first, the backoff delays slept are exactly 1, 2, 4, ... (doubling from
one time unit, one delay between each pair of consecutive attempts), and in
the fail-fail-succeed scenario with `max_retries = 2` the third attempt's
text is returned after delays of 1 and 2 time units. -/
theorem c7_retry_backoff :
    (∀ (outcomes : Nat → Except GenErr Str) (maxRetries : Nat),
      (geminiGenerate outcomes maxRetries).attempts ≤ maxRetries + 1 ∧
      1 ≤ (geminiGenerate outcomes maxRetries).attempts ∧
      (geminiGenerate outcomes maxRetries).delays
        = (List.range ((geminiGenerate outcomes maxRetries).attempts - 1)).map (2 ^ ·)) ∧
    geminiGenerate failTwiceOutcomes 2
      = { result := Except.ok "third attempt text".toList, attempts := 3, delays := [1, 2] } := by
  constructor
  · intro outcomes maxRetries
    obtain ⟨h1, h2, h3⟩ := geminiGenerateAux_spec outcomes maxRetries 0
    refine ⟨by simpa [geminiGenerate] using h2, by simpa [geminiGenerate] using h1, ?_⟩
    rw [geminiGenerate, h3, List.range_eq_range']
    simp
  · decide

/-!  ## C8: the sanitizer's output carries no comma and no newline -/

theorem pyReplaceAux_single_empty (x : Char) :
    ∀ (fuel : Nat) (s : Str), s.length ≤ fuel →
      pyReplaceAux [x] [] fuel s = s.filter (· ≠ x) := by
  intro fuel
  induction fuel with
  | zero =>
    intro s hs
    cases s with
    | nil => rfl
    | cons c rest => simp at hs
  | succ fuel ih =>
    intro s hs
    cases s with
    | nil => rfl
    | cons c rest =>
      simp only [pyReplaceAux]
      by_cases hxc : x = c
      · subst hxc
        have hpre : ([x] : Str).isPrefixOf (x :: rest) = true := by
          simp [List.isPrefixOf]
        simp only [hpre, List.isEmpty_cons, Bool.not_false, Bool.and_self, if_true]
        have hdrop : (x :: rest).drop ([x] : Str).length = rest := by simp
        rw [hdrop, List.nil_append, ih rest (by simpa using hs)]
        simp
      · have hpre : ([x] : Str).isPrefixOf (c :: rest) = false := by
          simp [List.isPrefixOf, hxc]
        simp only [hpre, Bool.and_false, Bool.false_eq_true, if_false]
        rw [ih rest (by simpa using Nat.le_of_succ_le_succ hs)]
        simp [Ne.symm hxc]

theorem pyReplace_single_empty (x : Char) (s : Str) :
    pyReplace [x] [] s = s.filter (· ≠ x) :=
  pyReplaceAux_single_empty x s.length s le_rfl

theorem mem_pyStrip {c : Char} {s : Str} (h : c ∈ pyStrip s) : c ∈ s := by
  unfold pyStrip at h
  rw [List.mem_reverse] at h
  have h2 := (List.dropWhile_sublist _).mem h
  rw [List.mem_reverse] at h2
  exact (List.dropWhile_sublist _).mem h2

theorem mem_pyStripChars {c : Char} {cs : List Char} {s : Str}
    (h : c ∈ pyStripChars cs s) : c ∈ s := by
  unfold pyStripChars at h
  rw [List.mem_reverse] at h
  have h2 := (List.dropWhile_sublist _).mem h
  rw [List.mem_reverse] at h2
  exact (List.dropWhile_sublist _).mem h2

theorem mem_collapseWSAux {c : Char} :
    ∀ (s : Str) (b : Bool), c ∈ collapseWSAux b s →
      c = ' ' ∨ (c ∈ s ∧ pyIsSpace c = false) := by
  intro s
  induction s with
  | nil => intro b h; simp [collapseWSAux] at h
  | cons d rest ih =>
    intro b h
    simp only [collapseWSAux] at h
    split at h
    · split at h
      · rcases ih true h with h | ⟨hm, hs⟩
        · exact Or.inl h
        · exact Or.inr ⟨List.mem_cons_of_mem _ hm, hs⟩
      · rcases List.mem_cons.mp h with h | h
        · exact Or.inl h
        · rcases ih true h with h | ⟨hm, hs⟩
          · exact Or.inl h
          · exact Or.inr ⟨List.mem_cons_of_mem _ hm, hs⟩
    · next hd =>
      rcases List.mem_cons.mp h with h | h
      · subst h
        exact Or.inr ⟨List.mem_cons_self _ _, by simpa using hd⟩
      · rcases ih false h with h | ⟨hm, hs⟩
        · exact Or.inl h
        · exact Or.inr ⟨List.mem_cons_of_mem _ hm, hs⟩

theorem mem_stripLabelRest {c : Char} {orig rest : Str}
    (h : c ∈ stripLabelRest orig rest) : c ∈ orig ∨ c ∈ rest := by
  unfold stripLabelRest at h
  split at h
  · next d r3 heq =>
    split at h
    · refine Or.inr ?_
      have h1 := (List.dropWhile_sublist _).mem h
      have h2 : c ∈ d :: r3 := List.mem_cons_of_mem _ h1
      rw [← heq] at h2
      exact (List.dropWhile_sublist _).mem h2
    · exact Or.inl h
  · exact Or.inl h

theorem mem_stripTalkLabel {c : Char} {s : Str} (h : c ∈ stripTalkLabel s) : c ∈ s := by
  unfold stripTalkLabel at h
  split at h
  · rcases mem_stripLabelRest h with h | h
    · exact h
    · exact (List.drop_sublist _ _).mem h
  · split at h
    · rcases mem_stripLabelRest h with h | h
      · exact h
      · exact (List.drop_sublist _ _).mem h
    · exact h

/-- Every character of the cleaned text is neither a comma (in any of the
three removed variants) nor a newline/carriage return. -/
theorem sanitizeCleaned_mem {text : Str} {c : Char} (h : c ∈ sanitizeCleaned text) :
    c ≠ ',' ∧ c ≠ '，' ∧ c ≠ '、' ∧ c ≠ '\n' ∧ c ≠ '\r' := by
  unfold sanitizeCleaned at h
  dsimp only at h
  rw [pyReplace_single_empty, pyReplace_single_empty, pyReplace_single_empty] at h
  rw [List.mem_filter] at h
  obtain ⟨h, h3⟩ := h
  rw [List.mem_filter] at h
  obtain ⟨h, h2⟩ := h
  rw [List.mem_filter] at h
  obtain ⟨h, h1⟩ := h
  have hlab := mem_stripTalkLabel h
  have hcol := mem_pyStrip hlab
  have hws := mem_collapseWSAux _ _ hcol
  have hnl : c ≠ '\n' ∧ c ≠ '\r' := by
    rcases hws with hsp | ⟨_, hns⟩
    · subst hsp
      exact ⟨by decide, by decide⟩
    · constructor
      · intro hc; subst hc; simp [pyIsSpace] at hns
      · intro hc; subst hc; simp [pyIsSpace] at hns
  exact ⟨by simpa using h1, by simpa using h2, by simpa using h3, hnl.1, hnl.2⟩

/-- A literal contains none of the forbidden output characters. -/
def cleanLiteral (s : Str) : Bool :=
  s.all fun c => c ≠ ',' && c ≠ '，' && c ≠ '、' && c ≠ '\n' && c ≠ '\r'

theorem basePools_clean :
    baseWhisperPool.all cleanLiteral = true ∧ baseTalkPool.all cleanLiteral = true :=
  ⟨by decide, by decide⟩

theorem baseFallback_clean (pick : Nat) (kind : ActionKind) {c : Char}
    (h : c ∈ pyStrip (agentFallbackTalkLike pick kind)) :
    c ≠ ',' ∧ c ≠ '，' ∧ c ≠ '、' ∧ c ≠ '\n' ∧ c ≠ '\r' := by
  have hm := mem_pyStrip h
  have hpool : agentFallbackTalkLike pick kind ∈ baseWhisperPool ∨
      agentFallbackTalkLike pick kind ∈ baseTalkPool := by
    cases kind with
    | whisper =>
      exact Or.inl (by
        unfold agentFallbackTalkLike
        exact randomChoice_mem (by decide) pick)
    | talk =>
      exact Or.inr (by
        unfold agentFallbackTalkLike
        exact randomChoice_mem (by decide) pick)
  have hcl : cleanLiteral (agentFallbackTalkLike pick kind) = true := by
    rcases hpool with hp | hp
    · exact List.all_eq_true.mp basePools_clean.1 _ hp
    · exact List.all_eq_true.mp basePools_clean.2 _ hp
  unfold cleanLiteral at hcl
  have hc := List.all_eq_true.mp hcl _ hm
  simp only [Bool.and_eq_true, decide_eq_true_eq] at hc
  obtain ⟨⟨⟨⟨h1, h2⟩, h3⟩, h4⟩, h5⟩ := hc
  exact ⟨h1, h2, h3, h4, h5⟩

/-- With the base-class fallback, the sanitizer returns either the cleaned
text or a stripped fallback utterance. -/
theorem sanitizeBase_cases :
    ∀ (info : Option AgentInfo) (pick : Nat) (text : Str) (kind : ActionKind) (s : Str),
      sanitizeFreeTextWith (baseFallback pick) info text kind = Except.ok s →
      s = sanitizeCleaned text ∨ s = pyStrip (agentFallbackTalkLike pick kind) := by
  intro info pick text kind s h
  unfold sanitizeFreeTextWith at h
  dsimp only at h
  split at h
  · exact Or.inl (Except.ok.inj h).symm
  · split at h
    · exact Or.inr (by
        simp only [baseFallback, Except.map] at h
        exact (Except.ok.inj h).symm)
    · match info with
      | some i =>
        dsimp only at h
        split at h
        · exact Or.inr (by
            simp only [baseFallback, Except.map] at h
            exact (Except.ok.inj h).symm)
        · exact Or.inl (Except.ok.inj h).symm
      | none =>
        dsimp only at h
        exact Or.inl (Except.ok.inj h).symm

theorem sanitizeCleaned_clean (text : Str) :
    ',' ∉ sanitizeCleaned text ∧ '，' ∉ sanitizeCleaned text ∧ '、' ∉ sanitizeCleaned text ∧
      '\n' ∉ sanitizeCleaned text ∧ '\r' ∉ sanitizeCleaned text :=
  ⟨fun hc => (sanitizeCleaned_mem hc).1 rfl,
   fun hc => (sanitizeCleaned_mem hc).2.1 rfl,
   fun hc => (sanitizeCleaned_mem hc).2.2.1 rfl,
   fun hc => (sanitizeCleaned_mem hc).2.2.2.1 rfl,
   fun hc => (sanitizeCleaned_mem hc).2.2.2.2 rfl⟩

theorem baseFallbackStrip_clean (pick : Nat) (kind : ActionKind) :
    ',' ∉ pyStrip (agentFallbackTalkLike pick kind) ∧
      '，' ∉ pyStrip (agentFallbackTalkLike pick kind) ∧
      '、' ∉ pyStrip (agentFallbackTalkLike pick kind) ∧
      '\n' ∉ pyStrip (agentFallbackTalkLike pick kind) ∧
      '\r' ∉ pyStrip (agentFallbackTalkLike pick kind) :=
  ⟨fun hc => (baseFallback_clean pick kind hc).1 rfl,
   fun hc => (baseFallback_clean pick kind hc).2.1 rfl,
   fun hc => (baseFallback_clean pick kind hc).2.2.1 rfl,
   fun hc => (baseFallback_clean pick kind hc).2.2.2.1 rfl,
   fun hc => (baseFallback_clean pick kind hc).2.2.2.2 rfl⟩

/-- C8: for every input text (and any agent info and fallback draw), the
string returned by `_sanitize_free_text` — including a substituted fallback
utterance — contains no half-width or full-width comma and no newline. -/
theorem c8_sanitize_no_comma_newline :
    ∀ (info : Option AgentInfo) (pick : Nat) (text : Str) (kind : ActionKind) (s : Str),
      sanitizeFreeTextWith (baseFallback pick) info text kind = Except.ok s →
      ',' ∉ s ∧ '，' ∉ s ∧ '、' ∉ s ∧ '\n' ∉ s ∧ '\r' ∉ s := by
  intro info pick text kind s h
  rcases sanitizeBase_cases info pick text kind s h with hs | hs
  · rw [hs]
    exact sanitizeCleaned_clean text
  · rw [hs]
    exact baseFallbackStrip_clean pick kind

/-- C8 witness: the theorem applied at a concrete comma-carrying input. -/
theorem c8_sanitize_witness :
    ',' ∉ "a b".toList ∧ '，' ∉ "a b".toList ∧ '、' ∉ "a b".toList ∧
      '\n' ∉ "a b".toList ∧ '\r' ∉ "a b".toList :=
  c8_sanitize_no_comma_newline none 0 "a, b".toList ActionKind.talk "a b".toList (by decide)

/-!  ## Game state aggregation (`set_packet`, `daily_initialize`) -/

/-- `Agent.set_packet`: note that the talk/whisper deltas are appended
unconditionally (no keying by day or identity); an INITIALIZE request clears
both histories afterwards. -/
def setPacket (st : AgentState) (p : GamePacket) : AgentState :=
  let st1 := { st with request := some p.request }
  let st2 :=
    match p.info with
    | some i =>
      { st1 with
        info := some i
        gameName := some i.agent
        profileText :=
          if p.request = GameRequest.initializeReq
              && (match i.profile with
                  | some pr => !(pyStrip pr).isEmpty
                  | none => false)
          then i.profile else st1.profileText }
    | none => st1
  let st3 :=
    match p.setting with
    | some s => { st2 with setting := some s }
    | none => st2
  let st4 :=
    if !p.talkHistory.isEmpty then { st3 with talkHistory := st3.talkHistory ++ p.talkHistory }
    else st3
  let st5 :=
    if !p.whisperHistory.isEmpty then
      { st4 with whisperHistory := st4.whisperHistory ++ p.whisperHistory }
    else st4
  if p.request = GameRequest.initializeReq then
    { st5 with talkHistory := [], whisperHistory := [] }
  else st5

/-- `Agent.daily_initialize`: each present result/record is appended
unconditionally on every call (executed/attacked names are Python-truthiness
tested, so the empty string is skipped). -/
def dailyInit (st : AgentState) : AgentState :=
  match st.info with
  | none => st
  | some i =>
    let st1 := { st with day := i.day }
    let st2 :=
      match i.divineResult with
      | some j => { st1 with divineResults := st1.divineResults ++ [j] }
      | none => st1
    let st3 :=
      match i.mediumResult with
      | some j => { st2 with mediumResults := st2.mediumResults ++ [j] }
      | none => st2
    let st4 :=
      match i.executedAgent with
      | some a =>
        if !a.isEmpty then { st3 with executedAgents := st3.executedAgents ++ [a] } else st3
      | none => st3
    match i.attackedAgent with
    | some a =>
      if !a.isEmpty then { st4 with attackedAgents := st4.attackedAgents ++ [a] } else st4
    | none => st4

def divineDelta (st : AgentState) : List Judge :=
  match st.info with
  | some i => (match i.divineResult with | some j => [j] | none => [])
  | none => []

def mediumDelta (st : AgentState) : List Judge :=
  match st.info with
  | some i => (match i.mediumResult with | some j => [j] | none => [])
  | none => []

def executedDelta (st : AgentState) : List Str :=
  match st.info with
  | some i => (match i.executedAgent with | some a => if !a.isEmpty then [a] else [] | none => [])
  | none => []

def attackedDelta (st : AgentState) : List Str :=
  match st.info with
  | some i => (match i.attackedAgent with | some a => if !a.isEmpty then [a] else [] | none => [])
  | none => []

theorem setPacket_histories (st : AgentState) (p : GamePacket)
    (h : p.request ≠ GameRequest.initializeReq) :
    (setPacket st p).talkHistory = st.talkHistory ++ p.talkHistory ∧
    (setPacket st p).whisperHistory = st.whisperHistory ++ p.whisperHistory := by
  constructor <;>
  · unfold setPacket
    rcases hinfo : p.info with _ | i <;> simp only [hinfo] <;>
      rcases hset : p.setting with _ | sv <;> simp only [hset] <;>
      split_ifs <;>
      first
        | rfl
        | simp_all [List.isEmpty_iff]

theorem dailyInit_appends (st : AgentState) :
    (dailyInit st).divineResults = st.divineResults ++ divineDelta st ∧
    (dailyInit st).mediumResults = st.mediumResults ++ mediumDelta st ∧
    (dailyInit st).executedAgents = st.executedAgents ++ executedDelta st ∧
    (dailyInit st).attackedAgents = st.attackedAgents ++ attackedDelta st ∧
    (dailyInit st).info = st.info := by
  rcases hinfo : st.info with _ | ⟨iday, iagent, iprof, ismap, irmap, idiv, imed, iexe, iatk, ivl⟩
  · refine ⟨?_, ?_, ?_, ?_, ?_⟩ <;>
      simp [dailyInit, divineDelta, mediumDelta, executedDelta, attackedDelta, hinfo]
  · rcases idiv with _ | dj <;> rcases imed with _ | mj <;>
      rcases iexe with _ | ea <;> rcases iatk with _ | aa <;>
      refine ⟨?_, ?_, ?_, ?_, ?_⟩ <;>
      · simp only [dailyInit, divineDelta, mediumDelta, executedDelta, attackedDelta, hinfo]
        try split_ifs
        all_goals first | rfl | simp_all [List.isEmpty_iff]

/-- A talk-request packet carrying one talk entry. -/
def c9Packet : GamePacket :=
  { request := GameRequest.talkReq
    info := none
    setting := none
    talkHistory := [{ agent := "Minato".toList, text := "hello".toList, day := 1 }]
    whisperHistory := [] }

/-- A state whose snapshot carries a divine result for the day. -/
def c9AgentSt : AgentState :=
  { initAgentState "kanolab1".toList GameRole.seer with
    info := some
      { day := 1
        agent := "Minato".toList
        profile := none
        statusMap := []
        roleMap := []
        divineResult := some { target := "Bob".toList, isWerewolf := true }
        mediumResult := none
        executedAgent := none
        attackedAgent := none
        voteList := [] } }

/-- C9 counterexample: feeding the identical packet (resp. the identical
day snapshot) twice duplicates the talk-history entry (resp. the divine
result), so re-processing the same day's snapshot is not idempotent. -/
theorem c9_counterexample :
    ((setPacket (setPacket (initAgentState "kanolab1".toList GameRole.seer) c9Packet)
        c9Packet).talkHistory).length = 2 ∧
    ((setPacket (initAgentState "kanolab1".toList GameRole.seer) c9Packet).talkHistory).length
      = 1 ∧
    ((dailyInit (dailyInit c9AgentSt)).divineResults).length = 2 ∧
    ((dailyInit c9AgentSt).divineResults).length = 1 :=
  ⟨by decide, by decide, by decide, by decide⟩

/-- C9 (amended): re-processing the same snapshot appends again rather than
deduplicating: `set_packet` blindly extends the talk/whisper histories with
the packet's deltas on every non-INITIALIZE call, and `daily_initialize`
appends the snapshot's divine/medium result and executed/attacked agent on
every call, so processing the same day's snapshot twice doubles those
entries. -/
theorem c9_reprocess_appends_amended :
    (∀ (st : AgentState) (p : GamePacket), p.request ≠ GameRequest.initializeReq →
      (setPacket (setPacket st p) p).talkHistory
        = st.talkHistory ++ p.talkHistory ++ p.talkHistory ∧
      (setPacket (setPacket st p) p).whisperHistory
        = st.whisperHistory ++ p.whisperHistory ++ p.whisperHistory) ∧
    (∀ st : AgentState,
      (dailyInit (dailyInit st)).divineResults
        = st.divineResults ++ divineDelta st ++ divineDelta st ∧
      (dailyInit (dailyInit st)).mediumResults
        = st.mediumResults ++ mediumDelta st ++ mediumDelta st ∧
      (dailyInit (dailyInit st)).executedAgents
        = st.executedAgents ++ executedDelta st ++ executedDelta st ∧
      (dailyInit (dailyInit st)).attackedAgents
        = st.attackedAgents ++ attackedDelta st ++ attackedDelta st) := by
  constructor
  · intro st p h
    obtain ⟨t1, w1⟩ := setPacket_histories st p h
    obtain ⟨t2, w2⟩ := setPacket_histories (setPacket st p) p h
    rw [t2, t1, w2, w1]
    exact ⟨rfl, rfl⟩
  · intro st
    obtain ⟨d1, m1, e1, a1, i1⟩ := dailyInit_appends st
    obtain ⟨d2, m2, e2, a2, _⟩ := dailyInit_appends (dailyInit st)
    have hdd : divineDelta (dailyInit st) = divineDelta st := by unfold divineDelta; rw [i1]
    have hmd : mediumDelta (dailyInit st) = mediumDelta st := by unfold mediumDelta; rw [i1]
    have hed : executedDelta (dailyInit st) = executedDelta st := by unfold executedDelta; rw [i1]
    have had : attackedDelta (dailyInit st) = attackedDelta st := by unfold attackedDelta; rw [i1]
    rw [d2, d1, hdd, m2, m1, hmd, e2, e1, hed, a2, a1, had]
    exact ⟨rfl, rfl, rfl, rfl⟩

/-- C9 witness: the amended claim applied at the concrete packet. -/
theorem c9_reprocess_appends_amended_witness :
    (setPacket (setPacket (initAgentState "kanolab1".toList GameRole.seer) c9Packet)
        c9Packet).talkHistory
      = (initAgentState "kanolab1".toList GameRole.seer).talkHistory
        ++ c9Packet.talkHistory ++ c9Packet.talkHistory :=
  (c9_reprocess_appends_amended.1 (initAgentState "kanolab1".toList GameRole.seer) c9Packet
    (by decide)).1

/-!  ## `Agent.talk` / `Agent.whisper` -/

/-- The sanitizer with the base-class fallback, projected to its returned
string (the error branch is unreachable for the base fallback, as proved in
the development above). -/
def baseSanitizeOk (info : Option AgentInfo) (pick : Nat) (text : Str) (kind : ActionKind) : Str :=
  match sanitizeFreeTextWith (baseFallback pick) info text kind with
  | Except.ok s => s
  | Except.error _ => []

/-- `Agent.talk` and `Agent.whisper` (they differ only in the action kind):
`resp` is the `_call_llm` result, falsy (None or empty) responses are
replaced by the fallback, the text is sanitized, and an empty sanitized text
becomes the control token "Over". -/
def talkLikeAction (st : AgentState) (resp : Option Str) (p1 p2 : Nat) (kind : ActionKind) :
    Str :=
  let text :=
    match resp with
    | some r => if r.isEmpty then agentFallbackTalkLike p1 kind else r
    | none => agentFallbackTalkLike p1 kind
  let t := baseSanitizeOk st.info p2 text kind
  if t.isEmpty then "Over".toList else t

/-- C10: `talk()` / `whisper()` never return the empty string: when the
sanitized text is empty they return the literal control token "Over", and
otherwise they return the sanitized text itself. -/
theorem c10_talk_whisper_never_empty :
    ∀ (st : AgentState) (resp : Option Str) (p1 p2 : Nat) (kind : ActionKind),
    talkLikeAction st resp p1 p2 kind ≠ [] ∧
    (baseSanitizeOk st.info p2
        (match resp with
         | some r => if r.isEmpty then agentFallbackTalkLike p1 kind else r
         | none => agentFallbackTalkLike p1 kind) kind = [] →
      talkLikeAction st resp p1 p2 kind = "Over".toList) ∧
    (baseSanitizeOk st.info p2
        (match resp with
         | some r => if r.isEmpty then agentFallbackTalkLike p1 kind else r
         | none => agentFallbackTalkLike p1 kind) kind ≠ [] →
      talkLikeAction st resp p1 p2 kind
        = baseSanitizeOk st.info p2
            (match resp with
             | some r => if r.isEmpty then agentFallbackTalkLike p1 kind else r
             | none => agentFallbackTalkLike p1 kind) kind) := by
  intro st resp p1 p2 kind
  unfold talkLikeAction
  dsimp only
  generalize (baseSanitizeOk st.info p2
      (match resp with
       | some r => if r.isEmpty then agentFallbackTalkLike p1 kind else r
       | none => agentFallbackTalkLike p1 kind) kind) = t
  rcases t with _ | ⟨c, cs⟩
  · exact ⟨by decide, fun _ => rfl, fun hne => absurd rfl hne⟩
  · refine ⟨?_, ?_, ?_⟩
    · simp
    · intro hq
      exact absurd hq (by simp)
    · intro _
      simp

/-- C10 witness: the theorem applied at concrete inputs, covering both the
"Over" substitution (a response that sanitizes to nothing) and the ordinary
path. -/
theorem c10_talk_whisper_never_empty_witness :
    talkLikeAction (initAgentState "kanolab1".toList GameRole.villager) (some "''".toList) 0 0
        ActionKind.talk = "Over".toList ∧
    talkLikeAction (initAgentState "kanolab1".toList GameRole.villager) (some "hello".toList) 0 0
        ActionKind.talk ≠ [] :=
  ⟨(c10_talk_whisper_never_empty (initAgentState "kanolab1".toList GameRole.villager)
      (some "''".toList) 0 0 ActionKind.talk).2.1 (by decide),
   (c10_talk_whisper_never_empty (initAgentState "kanolab1".toList GameRole.villager)
      (some "hello".toList) 0 0 ActionKind.talk).1⟩
